import Mathlib

/-!
Verification of the periodic power/energy sampling and accumulation engine
of the Real-Time Windows Energy Consumption Monitor
(`src/core/measure.py`, class `MeasurePowerEnergy`).

The Python class is shallowly embedded: floats become rationals (`ℚ`),
the mutable object becomes a `MeasureState` record threaded explicitly,
and each external reading consumed during one `do_measure` call
(the providers' `measure_power_and_energy` returns, the `psutil`
CPU-percent reading, the disk/network byte-counter deltas, and the
elapsed wall-clock duration) is supplied as input data.  Log emission is
modelled by a list of `LogEvent`s returned alongside the new state.
-/

namespace EnergyMonitor

/-- The runtime class of a hardware provider, as dispatched by the
`isinstance` chain in `do_measure`: `CPU`, `GPU`, `RAM`,
`AppleSiliconChip` (carrying its `chip_part` attribute), or any other
class (carrying a type name for diagnostics). -/
inductive HardwareKind where
  | cpu : HardwareKind
  | gpu : HardwareKind
  | ram : HardwareKind
  | appleSiliconChip (chip_part : String) : HardwareKind
  | unknownHardware (typeName : String) : HardwareKind
  deriving DecidableEq, Repr

/-- One hardware provider as observed during a single `do_measure` call:
its class, the `(power, energy)` pair returned by
`measure_power_and_energy` (`powerW` is the `.W` field of the returned
power object), and the `psutil.cpu_percent(interval=None)` value read
while this provider is processed (used only by the `CPU` branch). -/
structure Provider where
  kind : HardwareKind
  powerW : ℚ
  energyDelta : ℚ
  cpu_percent : ℚ
  deriving DecidableEq, Repr

/-- The mutable attributes of `MeasurePowerEnergy` that the sampling
loop reads or writes (leading underscores of the Python names dropped). -/
structure MeasureState where
  pue : ℚ
  disk_base_watts : ℚ
  network_base_watts : ℚ
  peripherals_base_watts : ℚ
  total_cpu_energy : ℚ
  total_gpu_energy : ℚ
  total_ram_energy : ℚ
  total_energy : ℚ
  cpu_power : ℚ
  gpu_power : ℚ
  ram_power : ℚ
  system_power : ℚ
  system_energy : ℚ
  deriving DecidableEq, Repr

/-- Constructor `MeasurePowerEnergy.__init__`: all totals and powers
start at zero; `pue` and the three base wattages are stored (Python
defaults: `disk_power=10`, `network_power=3`, `peripheral_power=10`). -/
def init (pue disk_power network_power peripheral_power : ℚ) : MeasureState :=
  { pue := pue
    disk_base_watts := disk_power
    network_base_watts := network_power
    peripherals_base_watts := peripheral_power
    total_cpu_energy := 0
    total_gpu_energy := 0
    total_ram_energy := 0
    total_energy := 0
    cpu_power := 0
    gpu_power := 0
    ram_power := 0
    system_power := 0
    system_energy := 0 }

/-- A log emission during sampling: `logger.info`, `logger.error`
(carrying the hardware whose class was not recognized), or
`logger.debug`. -/
inductive LogEvent where
  | info : LogEvent
  | errorEvent (hw : HardwareKind) : LogEvent
  | debug (hw : HardwareKind) : LogEvent
  deriving DecidableEq, Repr

/-- One iteration of the `for hardware in self._hardware` loop body of
`do_measure`: scale the returned energy by `self._pue`, add it to
`self._total_energy`, then dispatch on the provider's class.  The `CPU`
branch overrides the returned power with
`(cpu_percent / 100) * cpu_base_watts` (with `cpu_base_watts = 65`)
before storing it in `self._cpu_power`.  The `AppleSiliconChip` branch
with a `chip_part` other than `"CPU"`/`"GPU"` falls through its inner
`if`/`elif` with no further effect; any other class only logs an error.
Each iteration ends with a `logger.debug` line. -/
def process_hardware (s : MeasureState) (h : Provider) : MeasureState × List LogEvent :=
  let energy := h.energyDelta * s.pue
  let s1 := { s with total_energy := s.total_energy + energy }
  match h.kind with
  | HardwareKind.cpu =>
      let cpu_base_watts : ℚ := 65
      let estimated_cpu_power := h.cpu_percent / 100 * cpu_base_watts
      ({ s1 with
          total_cpu_energy := s1.total_cpu_energy + energy
          cpu_power := estimated_cpu_power },
       [LogEvent.info, LogEvent.debug h.kind])
  | HardwareKind.gpu =>
      ({ s1 with
          total_gpu_energy := s1.total_gpu_energy + energy
          gpu_power := h.powerW },
       [LogEvent.info, LogEvent.debug h.kind])
  | HardwareKind.ram =>
      ({ s1 with
          total_ram_energy := s1.total_ram_energy + energy
          ram_power := h.powerW },
       [LogEvent.info, LogEvent.debug h.kind])
  | HardwareKind.appleSiliconChip chip_part =>
      if chip_part = "CPU" then
        ({ s1 with
            total_cpu_energy := s1.total_cpu_energy + energy
            cpu_power := h.powerW },
         [LogEvent.info, LogEvent.debug h.kind])
      else if chip_part = "GPU" then
        ({ s1 with
            total_gpu_energy := s1.total_gpu_energy + energy
            gpu_power := h.powerW },
         [LogEvent.info, LogEvent.debug h.kind])
      else
        (s1, [LogEvent.debug h.kind])
  | HardwareKind.unknownHardware _ =>
      (s1, [LogEvent.errorEvent h.kind, LogEvent.debug h.kind])

/-- The whole provider loop of `do_measure`, folded left over the
provider list in order, concatenating the emitted log events. -/
def measure_loop (s : MeasureState) (ps : List Provider) : MeasureState × List LogEvent :=
  ps.foldl (fun acc h =>
    let r := process_hardware acc.1 h
    (r.1, acc.2 ++ r.2)) (s, [])

/-- The reference maximum throughput used to normalize byte-counter
deltas, `network_max_bytes = 125_000_000` bytes per second (~1 Gbps). -/
def network_max_bytes : ℚ := 125000000

/-- The clamped utilization computed twice inside
`get_estimated_system_power`: `min(total_bytes / network_max_bytes, 1.0)`
(the local variables `disk_usage_ratio` and `net_usage_ratio`). -/
def usage_fraction (total_bytes : ℚ) : ℚ :=
  min (total_bytes / network_max_bytes) 1

/-- Method `MeasurePowerEnergy.get_estimated_system_power`: clamp each
byte-counter delta (read + written bytes for disk, sent + received
bytes for network, each measured over a one second window) to a usage
ratio of at most `1.0`, scale by the corresponding base wattage, and
add the constant peripherals wattage in full.  The method stores the
result in `self._system_power` and returns it. -/
def get_estimated_system_power (s : MeasureState)
    (disk_total_bytes net_total_bytes : ℚ) : MeasureState × ℚ :=
  let disk_power := usage_fraction disk_total_bytes * s.disk_base_watts
  let network_power := usage_fraction net_total_bytes * s.network_base_watts
  let p := disk_power + network_power + s.peripherals_base_watts
  ({ s with system_power := p }, p)

/-- The external readings consumed by one `do_measure` call: the
provider observations, the two OS byte-counter deltas sampled inside
`get_estimated_system_power`, and the `perf_counter()` elapsed duration
(`last_duration`) taken just before the residual-energy accumulation. -/
structure SampleInput where
  providers : List Provider
  disk_total_bytes : ℚ
  net_total_bytes : ℚ
  last_duration : ℚ
  deriving DecidableEq, Repr

/-- Method `MeasurePowerEnergy.do_measure`: run the provider loop, recompute
`self._system_power` via `get_estimated_system_power`, accumulate
`self.system_energy += self._system_power * last_duration / 3600`,
and emit the three trailing `logger.info` lines. -/
def do_measure (s : MeasureState) (inp : SampleInput) : MeasureState × List LogEvent :=
  let r := measure_loop s inp.providers
  let sp := get_estimated_system_power r.1 inp.disk_total_bytes inp.net_total_bytes
  let s2 := { sp.1 with system_power := sp.2 }
  let s3 := { s2 with
      system_energy := s2.system_energy + s2.system_power * inp.last_duration / 3600 }
  (s3, r.2 ++ [LogEvent.info, LogEvent.info, LogEvent.info])

/-- A whole monitoring session: `do_measure` applied to each sample's
inputs in sequence, starting from a given state. -/
def run_samples (s : MeasureState) (inps : List SampleInput) : MeasureState :=
  inps.foldl (fun st inp => (do_measure st inp).1) s

/-- A provider class is recognized when the `isinstance`/`chip_part`
dispatch of `do_measure` routes its energy into one of the three
per-class totals. -/
def recognizedClass : HardwareKind → Bool
  | HardwareKind.cpu => true
  | HardwareKind.gpu => true
  | HardwareKind.ram => true
  | HardwareKind.appleSiliconChip chip_part => chip_part == "CPU" || chip_part == "GPU"
  | HardwareKind.unknownHardware _ => false

/-! ## Helper lemmas about the sampling loop -/

/-- State-only view of the provider loop: the fold of
`process_hardware` over the provider list, discarding log events. -/
def loop_state (s : MeasureState) : List Provider → MeasureState
  | [] => s
  | h :: t => loop_state (process_hardware s h).1 t

theorem measure_loop_aux (ps : List Provider) : ∀ (s : MeasureState) (evs : List LogEvent),
    (ps.foldl (fun acc h =>
      let r := process_hardware acc.1 h
      (r.1, acc.2 ++ r.2)) (s, evs)).1 = loop_state s ps := by
  induction ps with
  | nil => intro s evs; rfl
  | cons h t ih =>
      intro s evs
      simp only [List.foldl_cons, loop_state]
      exact ih _ _

theorem measure_loop_fst (s : MeasureState) (ps : List Provider) :
    (measure_loop s ps).1 = loop_state s ps :=
  measure_loop_aux ps s []

/-- One loop iteration leaves the immutable configuration and the
residual-system fields untouched. -/
theorem process_hardware_config (s : MeasureState) (h : Provider) :
    (process_hardware s h).1.pue = s.pue ∧
    (process_hardware s h).1.disk_base_watts = s.disk_base_watts ∧
    (process_hardware s h).1.network_base_watts = s.network_base_watts ∧
    (process_hardware s h).1.peripherals_base_watts = s.peripherals_base_watts ∧
    (process_hardware s h).1.system_power = s.system_power ∧
    (process_hardware s h).1.system_energy = s.system_energy := by
  rcases h with ⟨k, pw, e, cp⟩
  cases k <;> simp [process_hardware] <;> (split_ifs <;> simp)

/-- One loop iteration adds exactly the PUE-scaled energy delta to the
grand total. -/
theorem process_hardware_total (s : MeasureState) (h : Provider) :
    (process_hardware s h).1.total_energy = s.total_energy + h.energyDelta * s.pue := by
  rcases h with ⟨k, pw, e, cp⟩
  cases k <;> simp [process_hardware] <;> (split_ifs <;> simp)

theorem loop_state_config (ps : List Provider) : ∀ s : MeasureState,
    (loop_state s ps).pue = s.pue ∧
    (loop_state s ps).disk_base_watts = s.disk_base_watts ∧
    (loop_state s ps).network_base_watts = s.network_base_watts ∧
    (loop_state s ps).peripherals_base_watts = s.peripherals_base_watts ∧
    (loop_state s ps).system_power = s.system_power ∧
    (loop_state s ps).system_energy = s.system_energy := by
  induction ps with
  | nil => intro s; exact ⟨rfl, rfl, rfl, rfl, rfl, rfl⟩
  | cons h t ih =>
      intro s
      obtain ⟨h1, h2, h3, h4, h5, h6⟩ := process_hardware_config s h
      obtain ⟨g1, g2, g3, g4, g5, g6⟩ := ih (process_hardware s h).1
      exact ⟨g1.trans h1, g2.trans h2, g3.trans h3, g4.trans h4, g5.trans h5, g6.trans h6⟩

theorem loop_state_total (ps : List Provider) : ∀ s : MeasureState,
    (loop_state s ps).total_energy =
      s.total_energy + (ps.map (fun p => p.energyDelta * s.pue)).sum := by
  induction ps with
  | nil => intro s; simp [loop_state]
  | cons h t ih =>
      intro s
      have hp := (process_hardware_config s h).1
      simp only [loop_state, List.map_cons, List.sum_cons]
      rw [ih, process_hardware_total, hp]
      ring

/-- The value returned by `get_estimated_system_power` depends only on
the three base wattages of the state. -/
theorem system_power_eq_of_base (s t : MeasureState) (db nb : ℚ)
    (h1 : s.disk_base_watts = t.disk_base_watts)
    (h2 : s.network_base_watts = t.network_base_watts)
    (h3 : s.peripherals_base_watts = t.peripherals_base_watts) :
    (get_estimated_system_power s db nb).2 = (get_estimated_system_power t db nb).2 := by
  simp [get_estimated_system_power, h1, h2, h3]

/-- Closed form of the state produced by one `do_measure` call: the loop
state, with `system_power` overwritten by the freshly computed residual
power and `system_energy` incremented accordingly. -/
theorem do_measure_fst (s : MeasureState) (inp : SampleInput) :
    (do_measure s inp).1 =
      { loop_state s inp.providers with
          system_power :=
            (get_estimated_system_power (loop_state s inp.providers)
              inp.disk_total_bytes inp.net_total_bytes).2
          system_energy :=
            (loop_state s inp.providers).system_energy +
              (get_estimated_system_power (loop_state s inp.providers)
                inp.disk_total_bytes inp.net_total_bytes).2 * inp.last_duration / 3600 } := by
  simp only [do_measure, measure_loop_fst, get_estimated_system_power]

/-- Processing one more provider first is the same as starting the
sample from the post-provider state (state component). -/
theorem do_measure_cons (s : MeasureState) (p : Provider) (rest : List Provider)
    (db nb d : ℚ) :
    (do_measure s ⟨p :: rest, db, nb, d⟩).1 =
      (do_measure (process_hardware s p).1 ⟨rest, db, nb, d⟩).1 := by
  rw [do_measure_fst, do_measure_fst]
  rfl

/-- The residual-energy update of one `do_measure` call, expressed with
the residual power evaluated on the pre-call state (legitimate because
the provider loop never touches the base wattages). -/
theorem do_measure_system_energy (s : MeasureState) (inp : SampleInput) :
    (do_measure s inp).1.system_energy =
      s.system_energy +
        (get_estimated_system_power s inp.disk_total_bytes inp.net_total_bytes).2 *
          inp.last_duration / 3600 := by
  rw [do_measure_fst]
  have hc := loop_state_config inp.providers s
  have hp := system_power_eq_of_base (loop_state s inp.providers) s
    inp.disk_total_bytes inp.net_total_bytes hc.2.1 hc.2.2.1 hc.2.2.2.1
  show (loop_state s inp.providers).system_energy + _ = _
  rw [hp, hc.2.2.2.2.2]

/-- One loop iteration on a provider of recognized class preserves the
sum property. -/
theorem process_hardware_sum_inv (s : MeasureState) (h : Provider)
    (hrec : recognizedClass h.kind = true)
    (hs : s.total_energy = s.total_cpu_energy + s.total_gpu_energy + s.total_ram_energy) :
    (process_hardware s h).1.total_energy =
      (process_hardware s h).1.total_cpu_energy +
      (process_hardware s h).1.total_gpu_energy +
      (process_hardware s h).1.total_ram_energy := by
  rcases h with ⟨k, pw, e, cp⟩
  cases k with
  | cpu => simp [process_hardware, hs]; ring
  | gpu => simp [process_hardware, hs]; ring
  | ram => simp [process_hardware, hs]; ring
  | appleSiliconChip part =>
      simp only [recognizedClass, Bool.or_eq_true, beq_iff_eq] at hrec
      rcases hrec with h1 | h1 <;> subst h1 <;> simp [process_hardware, hs] <;> ring
  | unknownHardware n => simp [recognizedClass] at hrec

theorem loop_state_sum_inv (ps : List Provider) : ∀ s : MeasureState,
    (∀ p ∈ ps, recognizedClass p.kind = true) →
    s.total_energy = s.total_cpu_energy + s.total_gpu_energy + s.total_ram_energy →
    (loop_state s ps).total_energy =
      (loop_state s ps).total_cpu_energy + (loop_state s ps).total_gpu_energy +
      (loop_state s ps).total_ram_energy := by
  induction ps with
  | nil => intro s _ hs; exact hs
  | cons h t ih =>
      intro s hrec hs
      exact ih (process_hardware s h).1
        (fun p hp => hrec p (List.mem_cons_of_mem _ hp))
        (process_hardware_sum_inv s h (hrec h (List.mem_cons_self _ _)) hs)

theorem run_samples_sum_inv (inps : List SampleInput) : ∀ s : MeasureState,
    (∀ inp ∈ inps, ∀ p ∈ inp.providers, recognizedClass p.kind = true) →
    s.total_energy = s.total_cpu_energy + s.total_gpu_energy + s.total_ram_energy →
    (run_samples s inps).total_energy =
      (run_samples s inps).total_cpu_energy + (run_samples s inps).total_gpu_energy +
      (run_samples s inps).total_ram_energy := by
  induction inps with
  | nil => intro s _ hs; exact hs
  | cons inp t ih =>
      intro s hrec hs
      have hstep : (do_measure s inp).1.total_energy =
          (do_measure s inp).1.total_cpu_energy + (do_measure s inp).1.total_gpu_energy +
          (do_measure s inp).1.total_ram_energy := by
        rw [do_measure_fst]
        exact loop_state_sum_inv inp.providers s
          (hrec inp (List.mem_cons_self _ _)) hs
      exact ih (do_measure s inp).1
        (fun i hi => hrec i (List.mem_cons_of_mem _ hi)) hstep

/-- One loop iteration never decreases a per-class total when the
provider's energy delta and the PUE are non-negative. -/
theorem process_hardware_mono (s : MeasureState) (h : Provider)
    (hE : 0 ≤ h.energyDelta) (hpue : 0 ≤ s.pue) :
    s.total_cpu_energy ≤ (process_hardware s h).1.total_cpu_energy ∧
    s.total_gpu_energy ≤ (process_hardware s h).1.total_gpu_energy ∧
    s.total_ram_energy ≤ (process_hardware s h).1.total_ram_energy := by
  rcases h with ⟨k, pw, e, cp⟩
  have hE' : 0 ≤ e := hE
  have he : 0 ≤ e * s.pue := mul_nonneg hE' hpue
  cases k <;> simp only [process_hardware] <;> (try split_ifs) <;>
    refine ⟨?_, ?_, ?_⟩ <;> simp <;> linarith

theorem loop_state_mono (ps : List Provider) : ∀ s : MeasureState,
    (∀ p ∈ ps, 0 ≤ p.energyDelta) → 0 ≤ s.pue →
    s.total_cpu_energy ≤ (loop_state s ps).total_cpu_energy ∧
    s.total_gpu_energy ≤ (loop_state s ps).total_gpu_energy ∧
    s.total_ram_energy ≤ (loop_state s ps).total_ram_energy := by
  induction ps with
  | nil => intro s _ _; exact ⟨le_refl _, le_refl _, le_refl _⟩
  | cons h t ih =>
      intro s hE hpue
      have h1 := process_hardware_mono s h (hE h (List.mem_cons_self _ _)) hpue
      have hp := (process_hardware_config s h).1
      have h2 := ih (process_hardware s h).1
        (fun p hq => hE p (List.mem_cons_of_mem _ hq)) (by rw [hp]; exact hpue)
      exact ⟨h1.1.trans h2.1, h1.2.1.trans h2.2.1, h1.2.2.trans h2.2.2⟩

/-! ## Claim C1 — sum invariant -/

/-- C1 (counterexample): the claimed invariant
`total_hardware_energy = total_cpu_energy + total_gpu_energy + total_ram_energy`
does NOT hold regardless of provider classes: a single unknown-class
provider with energy delta `1` (PUE `1`) drives the grand total to `1`
while all three per-class totals stay `0`, because `do_measure` adds
the scaled energy to `self._total_energy` before the class dispatch. -/
theorem C1_sum_invariant_counterexample :
    ¬ ((do_measure (init 1 10 3 10)
          ⟨[⟨HardwareKind.unknownHardware "FooHardware", 5, 1, 0⟩], 0, 0, 0⟩).1.total_energy =
        (do_measure (init 1 10 3 10)
          ⟨[⟨HardwareKind.unknownHardware "FooHardware", 5, 1, 0⟩], 0, 0, 0⟩).1.total_cpu_energy +
        (do_measure (init 1 10 3 10)
          ⟨[⟨HardwareKind.unknownHardware "FooHardware", 5, 1, 0⟩], 0, 0, 0⟩).1.total_gpu_energy +
        (do_measure (init 1 10 3 10)
          ⟨[⟨HardwareKind.unknownHardware "FooHardware", 5, 1, 0⟩], 0, 0, 0⟩).1.total_ram_energy) := by
  norm_num [do_measure, measure_loop, process_hardware, get_estimated_system_power,
    usage_fraction, network_max_bytes, init]

/-- C1 (amended): after any sequence of `sample()` calls starting from a
fresh accumulator, `total_hardware_energy` equals
`total_cpu_energy + total_gpu_energy + total_ram_energy`, provided every
provider's class is recognized by the dispatch (CPU, GPU, RAM, or
AppleSiliconChip whose `chip_part` is "CPU" or "GPU"). -/
theorem C1_sum_invariant (pue dw nw pw : ℚ) (inps : List SampleInput)
    (hrec : ∀ inp ∈ inps, ∀ p ∈ inp.providers, recognizedClass p.kind = true) :
    (run_samples (init pue dw nw pw) inps).total_energy =
      (run_samples (init pue dw nw pw) inps).total_cpu_energy +
      (run_samples (init pue dw nw pw) inps).total_gpu_energy +
      (run_samples (init pue dw nw pw) inps).total_ram_energy := by
  exact run_samples_sum_inv inps (init pue dw nw pw) hrec (by simp [init])

/-- C1 (witness): the amended invariant, instantiated on one sample with
a CPU provider and a GPU provider under PUE `2`. -/
theorem C1_sum_invariant_witness :
    (run_samples (init 2 10 3 10)
        [⟨[⟨HardwareKind.cpu, 40, 1, 50⟩, ⟨HardwareKind.gpu, 80, 2, 0⟩], 0, 0, 1⟩]).total_energy =
      (run_samples (init 2 10 3 10)
          [⟨[⟨HardwareKind.cpu, 40, 1, 50⟩, ⟨HardwareKind.gpu, 80, 2, 0⟩], 0, 0, 1⟩]).total_cpu_energy +
      (run_samples (init 2 10 3 10)
          [⟨[⟨HardwareKind.cpu, 40, 1, 50⟩, ⟨HardwareKind.gpu, 80, 2, 0⟩], 0, 0, 1⟩]).total_gpu_energy +
      (run_samples (init 2 10 3 10)
          [⟨[⟨HardwareKind.cpu, 40, 1, 50⟩, ⟨HardwareKind.gpu, 80, 2, 0⟩], 0, 0, 1⟩]).total_ram_energy :=
  C1_sum_invariant 2 10 3 10
    [⟨[⟨HardwareKind.cpu, 40, 1, 50⟩, ⟨HardwareKind.gpu, 80, 2, 0⟩], 0, 0, 1⟩]
    (by decide)

/-! ## Claim C2 — unknown-class tolerance -/

/-- C2 (counterexample): an unknown-class provider does NOT leave all
four energy totals unchanged: with PUE `2` and energy delta `3`, the
grand total `total_energy` moves from `0` to `6` even though the class
is unrecognized, because the addition to `self._total_energy` precedes
the dispatch. -/
theorem C2_unknown_class_counterexample :
    ¬ ((do_measure (init 2 10 3 10)
          ⟨[⟨HardwareKind.unknownHardware "BarHardware", 0, 3, 0⟩], 0, 0, 0⟩).1.total_energy =
        (init 2 10 3 10).total_energy) := by
  norm_num [do_measure, measure_loop, process_hardware, get_estimated_system_power,
    usage_fraction, network_max_bytes, init]

/-- C2 (amended): processing a provider of unrecognized class is total
(no exception in the model), emits exactly one diagnostic error event
(plus the per-provider debug line), leaves the three per-class totals
and all power readings unchanged — but it DOES add the PUE-scaled
energy delta to the grand total `total_energy`; the rest of the sample
then proceeds exactly as if started from that bumped state. -/
theorem C2_unknown_class_tolerance (s : MeasureState) (p : Provider) (nm : String)
    (rest : List Provider) (db nb d : ℚ)
    (hk : p.kind = HardwareKind.unknownHardware nm) :
    process_hardware s p =
      ({ s with total_energy := s.total_energy + p.energyDelta * s.pue },
        [LogEvent.errorEvent p.kind, LogEvent.debug p.kind]) ∧
    (do_measure s ⟨p :: rest, db, nb, d⟩).1 =
      (do_measure { s with total_energy := s.total_energy + p.energyDelta * s.pue }
        ⟨rest, db, nb, d⟩).1 := by
  have h1 : process_hardware s p =
      ({ s with total_energy := s.total_energy + p.energyDelta * s.pue },
        [LogEvent.errorEvent p.kind, LogEvent.debug p.kind]) := by
    rcases p with ⟨k, pw, e, cp⟩
    subst hk
    simp [process_hardware]
  refine ⟨h1, ?_⟩
  rw [do_measure_cons, h1]

/-- C2 (witness): the amended statement at a concrete unknown-class
provider followed by a RAM provider. -/
theorem C2_unknown_class_witness :
    process_hardware (init 3 10 3 10) ⟨HardwareKind.unknownHardware "BazHardware", 1, 2, 0⟩ =
      ({ init 3 10 3 10 with total_energy := (init 3 10 3 10).total_energy + 2 * (init 3 10 3 10).pue },
        [LogEvent.errorEvent (HardwareKind.unknownHardware "BazHardware"),
         LogEvent.debug (HardwareKind.unknownHardware "BazHardware")]) ∧
    (do_measure (init 3 10 3 10)
        ⟨[⟨HardwareKind.unknownHardware "BazHardware", 1, 2, 0⟩, ⟨HardwareKind.ram, 4, 5, 0⟩], 7, 8, 9⟩).1 =
      (do_measure { init 3 10 3 10 with
          total_energy := (init 3 10 3 10).total_energy + 2 * (init 3 10 3 10).pue }
        ⟨[⟨HardwareKind.ram, 4, 5, 0⟩], 7, 8, 9⟩).1 :=
  C2_unknown_class_tolerance (init 3 10 3 10)
    ⟨HardwareKind.unknownHardware "BazHardware", 1, 2, 0⟩ "BazHardware"
    [⟨HardwareKind.ram, 4, 5, 0⟩] 7 8 9 rfl

/-! ## Claim C3 — overhead scaling -/

/-- C3: one `sample()` call with a single provider returning energy
delta `E` increases `total_hardware_energy` by exactly `E` times the
facility overhead factor (`self._pue`); and in general the grand total
grows by the sum of the PUE-scaled energy deltas of all providers. -/
theorem C3_overhead_scaling (s : MeasureState) (p : Provider) (db nb d : ℚ) :
    (do_measure s ⟨[p], db, nb, d⟩).1.total_energy = s.total_energy + p.energyDelta * s.pue ∧
    ∀ ps : List Provider,
      (do_measure s ⟨ps, db, nb, d⟩).1.total_energy =
        s.total_energy + (ps.map (fun q => q.energyDelta * s.pue)).sum := by
  have hgen : ∀ ps : List Provider,
      (do_measure s ⟨ps, db, nb, d⟩).1.total_energy =
        s.total_energy + (ps.map (fun q => q.energyDelta * s.pue)).sum := by
    intro ps
    rw [do_measure_fst]
    exact loop_state_total ps s
  refine ⟨?_, hgen⟩
  have h1 := hgen [p]
  simpa using h1

/-! ## Claim C4 — monotonicity -/

/-- C4: when every provider in a `sample()` call returns a non-negative
energy delta, the overhead factor is non-negative, the residual power
computed for the call is non-negative and the elapsed duration is
non-negative, then `total_cpu_energy`, `total_gpu_energy`,
`total_ram_energy` and `estimated_system_energy` are all at least their
values before the call. -/
theorem C4_monotonicity (s : MeasureState) (inp : SampleInput)
    (hE : ∀ p ∈ inp.providers, 0 ≤ p.energyDelta)
    (hpue : 0 ≤ s.pue)
    (hsys : 0 ≤ (get_estimated_system_power s inp.disk_total_bytes inp.net_total_bytes).2)
    (hd : 0 ≤ inp.last_duration) :
    s.total_cpu_energy ≤ (do_measure s inp).1.total_cpu_energy ∧
    s.total_gpu_energy ≤ (do_measure s inp).1.total_gpu_energy ∧
    s.total_ram_energy ≤ (do_measure s inp).1.total_ram_energy ∧
    s.system_energy ≤ (do_measure s inp).1.system_energy := by
  have hm := loop_state_mono inp.providers s hE hpue
  have hse := do_measure_system_energy s inp
  have htot : s.system_energy ≤ (do_measure s inp).1.system_energy := by
    rw [hse]
    have : 0 ≤ (get_estimated_system_power s inp.disk_total_bytes inp.net_total_bytes).2 *
        inp.last_duration / 3600 := by positivity
    linarith
  rw [do_measure_fst]
  exact ⟨hm.1, hm.2.1, hm.2.2, by rw [do_measure_fst] at htot; exact htot⟩

/-- C4 (witness): monotonicity at one concrete sample with a CPU and a
RAM provider under PUE `3/2` and idle I/O counters. -/
theorem C4_monotonicity_witness :
    (init (3/2) 10 3 10).total_cpu_energy ≤
      (do_measure (init (3/2) 10 3 10)
        ⟨[⟨HardwareKind.cpu, 65, 1/100, 20⟩, ⟨HardwareKind.ram, 5, 1/200, 0⟩], 0, 0, 2⟩).1.total_cpu_energy ∧
    (init (3/2) 10 3 10).total_gpu_energy ≤
      (do_measure (init (3/2) 10 3 10)
        ⟨[⟨HardwareKind.cpu, 65, 1/100, 20⟩, ⟨HardwareKind.ram, 5, 1/200, 0⟩], 0, 0, 2⟩).1.total_gpu_energy ∧
    (init (3/2) 10 3 10).total_ram_energy ≤
      (do_measure (init (3/2) 10 3 10)
        ⟨[⟨HardwareKind.cpu, 65, 1/100, 20⟩, ⟨HardwareKind.ram, 5, 1/200, 0⟩], 0, 0, 2⟩).1.total_ram_energy ∧
    (init (3/2) 10 3 10).system_energy ≤
      (do_measure (init (3/2) 10 3 10)
        ⟨[⟨HardwareKind.cpu, 65, 1/100, 20⟩, ⟨HardwareKind.ram, 5, 1/200, 0⟩], 0, 0, 2⟩).1.system_energy :=
  C4_monotonicity (init (3/2) 10 3 10)
    ⟨[⟨HardwareKind.cpu, 65, 1/100, 20⟩, ⟨HardwareKind.ram, 5, 1/200, 0⟩], 0, 0, 2⟩
    (by intro p hp; fin_cases hp <;> norm_num)
    (by norm_num [init])
    (by norm_num [get_estimated_system_power, usage_fraction, network_max_bytes, init])
    (by norm_num)

/-! ## Claim C5 — CPU power reading -/

/-- C5 (counterexample): a `sample()` call does NOT store the CPU
provider's returned power in `cpu_power`: with a CPU provider returning
power `30` W while the OS reports 100% CPU utilization, `cpu_power`
ends up `65` (the `(cpu_percent/100) * 65` estimate), not `30` — the
CPU branch overrides the provider's reading. -/
theorem C5_cpu_power_counterexample :
    (do_measure (init 1 10 3 10)
        ⟨[⟨HardwareKind.cpu, 30, 1, 100⟩], 0, 0, 0⟩).1.cpu_power ≠ 30 := by
  norm_num [do_measure, measure_loop, process_hardware, get_estimated_system_power,
    usage_fraction, network_max_bytes, init]

/-- C5 (amended): for a CPU-class provider, a `sample()` call sets
`cpu_power` to `(cpu_percent / 100) * 65` — the power estimated from
the OS CPU-utilization reading with an assumed 65 W TDP — overriding the
power value returned by the provider's `measure_power_and_energy`. -/
theorem C5_cpu_power_override (s : MeasureState) (p : Provider) (db nb d : ℚ)
    (hk : p.kind = HardwareKind.cpu) :
    (do_measure s ⟨[p], db, nb, d⟩).1.cpu_power = p.cpu_percent / 100 * 65 := by
  rw [do_measure_fst]
  rcases p with ⟨k, pw, e, cp⟩
  subst hk
  show (loop_state s _).cpu_power = _
  simp [loop_state, process_hardware]

/-- C5 (witness): with the OS reporting 40% utilization, `cpu_power`
becomes `26` regardless of the provider's returned `30` W. -/
theorem C5_cpu_power_override_witness :
    (do_measure (init 1 10 3 10)
        ⟨[⟨HardwareKind.cpu, 30, 1, 40⟩], 0, 0, 0⟩).1.cpu_power = 40 / 100 * 65 :=
  C5_cpu_power_override (init 1 10 3 10) ⟨HardwareKind.cpu, 30, 1, 40⟩ 0 0 0 rfl

/-! ## Claim C6 — residual power formula -/

/-- Modelled from the spec: the residual system power formula exactly as
the specification words it —
`disk_usage_ratio * disk_base_watts + net_usage_ratio * network_base_watts
 + peripherals_base_watts`, each usage ratio being the byte delta over
`125_000_000` clamped to at most `1.0`, the peripherals term added in
full.  Stated separately from `get_estimated_system_power` (which is
translated from the code) so the two can be compared. -/
def residual_power_spec (disk_bytes net_bytes disk_watts net_watts peripherals_watts : ℚ) : ℚ :=
  min (disk_bytes / 125000000) 1 * disk_watts +
    min (net_bytes / 125000000) 1 * net_watts + peripherals_watts

/-- C6: the code's `get_estimated_system_power` computes exactly the
spec's residual power formula, for every pair of byte-counter deltas
and every configuration of base wattages. -/
theorem C6_residual_formula (s : MeasureState) (db nb : ℚ) :
    (get_estimated_system_power s db nb).2 =
      residual_power_spec db nb s.disk_base_watts s.network_base_watts
        s.peripherals_base_watts := by
  simp [get_estimated_system_power, residual_power_spec, usage_fraction, network_max_bytes]

/-! ## Claim C7 — utilization clamp -/

/-- C7: every computed usage ratio is at most `1.0`, including for byte
deltas whose implied rate exceeds the `125_000_000` bytes/s reference
maximum; hence (for non-negative base wattages) the disk power never
exceeds `disk_base_watts` and the network power never exceeds
`network_base_watts`. -/
theorem C7_utilization_clamp (s : MeasureState) (db nb : ℚ)
    (hdw : 0 ≤ s.disk_base_watts) (hnw : 0 ≤ s.network_base_watts) :
    usage_fraction db ≤ 1 ∧ usage_fraction nb ≤ 1 ∧
    usage_fraction db * s.disk_base_watts ≤ s.disk_base_watts ∧
    usage_fraction nb * s.network_base_watts ≤ s.network_base_watts :=
  ⟨min_le_right _ _, min_le_right _ _,
    mul_le_of_le_one_left hdw (min_le_right _ _),
    mul_le_of_le_one_left hnw (min_le_right _ _)⟩

/-- C7 (witness): at 10x the reference maximum (`1_250_000_000` bytes in
the one-second window) the ratio still clamps and the scaled powers stay
at or below the default base wattages. -/
theorem C7_utilization_clamp_witness :
    usage_fraction 1250000000 ≤ 1 ∧ usage_fraction 1250000000 ≤ 1 ∧
    usage_fraction 1250000000 * (init 1 10 3 10).disk_base_watts ≤
      (init 1 10 3 10).disk_base_watts ∧
    usage_fraction 1250000000 * (init 1 10 3 10).network_base_watts ≤
      (init 1 10 3 10).network_base_watts :=
  C7_utilization_clamp (init 1 10 3 10) 1250000000 1250000000
    (by norm_num [init]) (by norm_num [init])

/-! ## Claim C8 — residual energy accumulation -/

/-- C8: every `do_measure` call increases `estimated_system_energy`
(`self.system_energy`) by exactly the residual power computed in that
same call times the elapsed duration divided by `3600`; and no other
operation of the sampling engine changes it — each provider-loop
iteration and the residual-power computation itself leave
`system_energy` untouched. -/
theorem C8_residual_energy (s : MeasureState) (inp : SampleInput) :
    ((do_measure s inp).1.system_energy =
      s.system_energy +
        (get_estimated_system_power s inp.disk_total_bytes inp.net_total_bytes).2 *
          inp.last_duration / 3600) ∧
    (∀ p : Provider, (process_hardware s p).1.system_energy = s.system_energy) ∧
    (∀ db nb : ℚ, (get_estimated_system_power s db nb).1.system_energy = s.system_energy) :=
  ⟨do_measure_system_energy s inp,
    fun p => (process_hardware_config s p).2.2.2.2.2,
    fun _ _ => rfl⟩

/-! ## Claim C9 — independence of the residual estimate -/

/-- C9: two `sample()` calls that observe the same disk and network
byte-counter deltas and the same elapsed duration, on accumulators with
the same three base wattages, change `estimated_system_energy` by
exactly the same amount — no matter which providers run, what powers
and energies they return, what PUE is configured, or what the rest of
the state holds. -/
theorem C9_independence (s1 s2 : MeasureState) (inp1 inp2 : SampleInput)
    (hbw : s1.disk_base_watts = s2.disk_base_watts)
    (hnw : s1.network_base_watts = s2.network_base_watts)
    (hpw : s1.peripherals_base_watts = s2.peripherals_base_watts)
    (hdb : inp1.disk_total_bytes = inp2.disk_total_bytes)
    (hnb : inp1.net_total_bytes = inp2.net_total_bytes)
    (hd : inp1.last_duration = inp2.last_duration) :
    (do_measure s1 inp1).1.system_energy - s1.system_energy =
      (do_measure s2 inp2).1.system_energy - s2.system_energy := by
  rw [do_measure_system_energy, do_measure_system_energy, hdb, hnb, hd,
    system_power_eq_of_base s1 s2 inp2.disk_total_bytes inp2.net_total_bytes hbw hnw hpw]
  ring

/-- C9 (witness): a CPU provider returning `(40 W, 7 Wh)` under PUE `1`
versus a GPU provider returning `(200 W, 11 Wh)` under PUE `5`: with
identical I/O deltas and duration, the residual energy delta is
identical. -/
theorem C9_independence_witness :
    (do_measure (init 1 10 3 10)
        ⟨[⟨HardwareKind.cpu, 40, 7, 50⟩], 100, 200, 10⟩).1.system_energy -
      (init 1 10 3 10).system_energy =
    (do_measure (init 5 10 3 10)
        ⟨[⟨HardwareKind.gpu, 200, 11, 0⟩], 100, 200, 10⟩).1.system_energy -
      (init 5 10 3 10).system_energy :=
  C9_independence (init 1 10 3 10) (init 5 10 3 10)
    ⟨[⟨HardwareKind.cpu, 40, 7, 50⟩], 100, 200, 10⟩
    ⟨[⟨HardwareKind.gpu, 200, 11, 0⟩], 100, 200, 10⟩
    rfl rfl rfl rfl rfl rfl

/-! ## Claim C10 — SoC part with unrecognized sub-tag -/

/-- C10: an `AppleSiliconChip` provider whose `chip_part` is neither
"CPU" nor "GPU" has its PUE-scaled energy delta added to the grand
total `total_energy` but to no per-class total, emits no diagnostic
error event (only the per-provider debug line), and the call is total
(no exception in the model); the rest of the sample proceeds from the
bumped state. -/
theorem C10_soc_other_part (s : MeasureState) (p : Provider) (part : String)
    (rest : List Provider) (db nb d : ℚ)
    (hk : p.kind = HardwareKind.appleSiliconChip part)
    (h1 : part ≠ "CPU") (h2 : part ≠ "GPU") :
    process_hardware s p =
      ({ s with total_energy := s.total_energy + p.energyDelta * s.pue },
        [LogEvent.debug p.kind]) ∧
    (do_measure s ⟨p :: rest, db, nb, d⟩).1 =
      (do_measure { s with total_energy := s.total_energy + p.energyDelta * s.pue }
        ⟨rest, db, nb, d⟩).1 := by
  have hp : process_hardware s p =
      ({ s with total_energy := s.total_energy + p.energyDelta * s.pue },
        [LogEvent.debug p.kind]) := by
    rcases p with ⟨k, pw, e, cp⟩
    subst hk
    simp [process_hardware, h1, h2]
  refine ⟨hp, ?_⟩
  rw [do_measure_cons, hp]

/-- C10 (witness): an AppleSiliconChip provider with `chip_part = "ANE"`
followed by a GPU provider. -/
theorem C10_soc_other_part_witness :
    process_hardware (init 2 10 3 10) ⟨HardwareKind.appleSiliconChip "ANE", 6, 5, 0⟩ =
      ({ init 2 10 3 10 with
          total_energy := (init 2 10 3 10).total_energy + 5 * (init 2 10 3 10).pue },
        [LogEvent.debug (HardwareKind.appleSiliconChip "ANE")]) ∧
    (do_measure (init 2 10 3 10)
        ⟨[⟨HardwareKind.appleSiliconChip "ANE", 6, 5, 0⟩, ⟨HardwareKind.gpu, 7, 8, 0⟩], 1, 2, 3⟩).1 =
      (do_measure { init 2 10 3 10 with
          total_energy := (init 2 10 3 10).total_energy + 5 * (init 2 10 3 10).pue }
        ⟨[⟨HardwareKind.gpu, 7, 8, 0⟩], 1, 2, 3⟩).1 :=
  C10_soc_other_part (init 2 10 3 10) ⟨HardwareKind.appleSiliconChip "ANE", 6, 5, 0⟩ "ANE"
    [⟨HardwareKind.gpu, 7, 8, 0⟩] 1 2 3 rfl
    (by decide) (by decide)

end EnergyMonitor
